import Mathlib

/-!
Shallow embedding of the mobc-surrealdb adapter (src/lib.rs).

The adapter owns an endpoint descriptor (protocol, address, credentials)
and implements the two-operation pool capability interface: `connect`
creates an authenticated connection, `check` probes a live connection.
Network effects of the surrealdb client library are modelled by an
explicit oracle `ClientEnv`; each adapter operation additionally returns
the list of client-library calls it performed, in order, so that
sequencing, absence of retries and resource cleanup can be stated.
-/

/-- Enum of the supported connection protocols (src/lib.rs lines 10-15). -/
inductive ConnectionProtocol where
  | Http
  | Https
  | Ws
  | Wss
deriving DecidableEq, Repr

/-- Scheme as a string (src/lib.rs lines 19-26, `ConnectionProtocol::as_str`). -/
def ConnectionProtocol.as_str : ConnectionProtocol → String
  | ConnectionProtocol.Http => "http://"
  | ConnectionProtocol.Https => "https://"
  | ConnectionProtocol.Ws => "ws://"
  | ConnectionProtocol.Wss => "wss://"

/-- Root-level credential payload, modelling `surrealdb::opt::auth::Root`
as used at src/lib.rs lines 81-84. -/
structure RootAuth where
  username : String
  password : String
deriving DecidableEq, Repr

/-- One live client session, as handed out by the client library.
The namespace and database context fields model the server-side
selection state visible through the session (set by `use_ns`/`use_db`,
which this adapter never calls). -/
structure Session where
  sid : Nat
  ns_ctx : Option String
  db_ctx : Option String
deriving DecidableEq, Repr

/-- Opaque query response token, modelling `surrealdb::Response`. -/
structure Response where
  rid : Nat
deriving DecidableEq, Repr

/-- Variants of `surrealdb::error::Api` relevant to the adapter. The
`Query` variant carries a bare message string; it is the variant the
adapter itself constructs at src/lib.rs lines 97-99. `OtherApi` stands
for every other client-produced API error. -/
inductive ApiError where
  | Query (msg : String)
  | OtherApi (tag : String)
deriving DecidableEq, Repr

/-- The `surrealdb::Error` type: either a database-side error or an API
error (the only two variants of the real enum). -/
inductive SurrealError where
  | Db (tag : String)
  | Api (e : ApiError)
deriving DecidableEq, Repr

/-- Shared reference-counted handle, modelling `std::sync::Arc`. -/
structure Arc (α : Type) where
  val : α
deriving DecidableEq, Repr

/-- Oracle for the client library: the outcome of each call the adapter
may make. `connectResult` models `any::connect`, `signinResult` models
`Surreal::signin` with a root payload, `queryResult` models
`Surreal::query`, `takeResult` models `Response::take` deserialised at
`Option i32`. -/
structure ClientEnv where
  connectResult : String → Except SurrealError Session
  signinResult : Session → RootAuth → Except SurrealError Unit
  queryResult : Session → String → Except SurrealError Response
  takeResult : Response → Nat → Except SurrealError (Option Int)

/-- Observable client-library calls, recorded in order. `useNs` and
`useDb` are part of the client interface (used by callers, never by the
adapter); `sessionDropped` records that the last handle to a session was
dropped, which closes it. -/
inductive ClientEvent where
  | connectCall (uri : String)
  | signinRoot (s : Session) (cred : RootAuth)
  | queryCall (s : Session) (text : String)
  | takeCall (r : Response) (idx : Nat)
  | useNs (s : Session) (ns : String)
  | useDb (s : Session) (db : String)
  | sessionDropped (s : Session)
deriving DecidableEq, Repr

/-- Events that select a namespace or database context on a session. -/
def ClientEvent.selectsContext : ClientEvent → Bool
  | ClientEvent.useNs _ _ => true
  | ClientEvent.useDb _ _ => true
  | _ => false

/-- Events that mutate session-visible state: re-authentication, context
selection, or closing. The probe calls `queryCall`/`takeCall` are
read-only round trips (the probe text evaluates a constant), and
`connectCall` creates a fresh independent session. -/
def ClientEvent.mutatesSessionState : ClientEvent → Bool
  | ClientEvent.signinRoot _ _ => true
  | ClientEvent.useNs _ _ => true
  | ClientEvent.useDb _ _ => true
  | ClientEvent.sessionDropped _ => true
  | _ => false

/-- The connection manager (src/lib.rs lines 31-36). -/
structure SurrealDBConnectionManager where
  protocol : ConnectionProtocol
  db_url : String
  db_user : String
  db_password : String
deriving DecidableEq, Repr

/-- Constructor with the default protocol (src/lib.rs lines 40-51). -/
def SurrealDBConnectionManager.new
    (db_url db_user db_password : String) : SurrealDBConnectionManager :=
  { protocol := ConnectionProtocol.Ws
    db_url := db_url
    db_user := db_user
    db_password := db_password }

/-- Constructor with a custom protocol (src/lib.rs lines 54-66). -/
def SurrealDBConnectionManager.new_with_protocol
    (protocol : ConnectionProtocol)
    (db_url db_user db_password : String) : SurrealDBConnectionManager :=
  { protocol := protocol
    db_url := db_url
    db_user := db_user
    db_password := db_password }

/-- Full URL composition at src/lib.rs line 78:
`format!("{}{}", self.protocol.as_str(), self.db_url)`. -/
def SurrealDBConnectionManager.full_url (m : SurrealDBConnectionManager) : String :=
  m.protocol.as_str ++ m.db_url

/-- Root credential payload built at src/lib.rs lines 81-84. -/
def SurrealDBConnectionManager.rootCred (m : SurrealDBConnectionManager) : RootAuth :=
  { username := m.db_user, password := m.db_password }

/-- Embedding of `Manager::connect` (src/lib.rs lines 76-88). Each `?`
propagates the client error. When `signin` fails, the local `db` binding
is the only handle to the opened session and is dropped at scope exit,
which closes the session; the trace records this drop. On success the
session is moved into the returned `Arc` and is not dropped. -/
def SurrealDBConnectionManager.connect (m : SurrealDBConnectionManager)
    (env : ClientEnv) : Except SurrealError (Arc Session) × List ClientEvent :=
  match env.connectResult m.full_url with
  | Except.error e => (Except.error e, [ClientEvent.connectCall m.full_url])
  | Except.ok db =>
    match env.signinResult db m.rootCred with
    | Except.error e =>
        (Except.error e,
          [ClientEvent.connectCall m.full_url,
           ClientEvent.signinRoot db m.rootCred,
           ClientEvent.sessionDropped db])
    | Except.ok _ =>
        (Except.ok (Arc.mk db),
          [ClientEvent.connectCall m.full_url,
           ClientEvent.signinRoot db m.rootCred])

/-- Error value constructed by the health check on an unexpected probe
result (src/lib.rs lines 97-99):
`Error::Api(Api::Query("Health check failed".into()))`. This is the
representative of the ValidateError(UnexpectedResult) class. -/
def healthCheckFailedError : SurrealError :=
  SurrealError.Api (ApiError.Query "Health check failed")

/-- Embedding of `Manager::check` (src/lib.rs lines 91-101): issue the
probe query `RETURN 1`, take result index 0 at `Option i32`, succeed
with the same handle iff the result equals `Some(1)`. -/
def SurrealDBConnectionManager.check (m : SurrealDBConnectionManager)
    (env : ClientEnv) (conn : Arc Session) :
    Except SurrealError (Arc Session) × List ClientEvent :=
  match env.queryResult conn.val "RETURN 1" with
  | Except.error e =>
      (Except.error e, [ClientEvent.queryCall conn.val "RETURN 1"])
  | Except.ok response =>
    match env.takeResult response 0 with
    | Except.error e =>
        (Except.error e,
          [ClientEvent.queryCall conn.val "RETURN 1",
           ClientEvent.takeCall response 0])
    | Except.ok result =>
      if result = some 1 then
        (Except.ok conn,
          [ClientEvent.queryCall conn.val "RETURN 1",
           ClientEvent.takeCall response 0])
      else
        (Except.error healthCheckFailedError,
          [ClientEvent.queryCall conn.val "RETURN 1",
           ClientEvent.takeCall response 0])

/-- Claim C3: for each of the four scheme values and every address
string, the composed connection URI equals the scheme prefix
concatenated with the address, with no other characters altered,
inserted, or normalized. -/
theorem full_url_concatenation
    (p : ConnectionProtocol) (addr user pw : String) :
    (SurrealDBConnectionManager.new_with_protocol p addr user pw).full_url
      = p.as_str ++ addr
    ∧ ConnectionProtocol.Http.as_str = "http://"
    ∧ ConnectionProtocol.Https.as_str = "https://"
    ∧ ConnectionProtocol.Ws.as_str = "ws://"
    ∧ ConnectionProtocol.Wss.as_str = "wss://" :=
  ⟨rfl, rfl, rfl, rfl, rfl⟩

/-- Claim C9: a manager constructed without an explicit scheme uses the
plaintext-socket-stream (ws) scheme, so its composed URI begins with the
ws prefix. -/
theorem new_defaults_to_ws (addr user pw : String) :
    (SurrealDBConnectionManager.new addr user pw).protocol
      = ConnectionProtocol.Ws
    ∧ (SurrealDBConnectionManager.new addr user pw).full_url
      = "ws://" ++ addr
    ∧ ∃ rest, (SurrealDBConnectionManager.new addr user pw).full_url
      = "ws://" ++ rest :=
  ⟨rfl, rfl, addr, rfl⟩

/-- Fresh session value used by the concrete environments below. -/
def sessionA : Session := { sid := 0, ns_ctx := none, db_ctx := none }

/-- Response token used by the concrete environments below. -/
def responseA : Response := { rid := 0 }

/-- Manager configured exactly as in examples/surrealdb.rs lines 22-26. -/
def managerA : SurrealDBConnectionManager :=
  SurrealDBConnectionManager.new "127.0.0.1:8000" "root" "root"

/-- Client error value used to model an underlying client failure. -/
def errBoom : SurrealError := SurrealError.Db "connection refused"

/-- Environment where every client call succeeds and the probe yields
`Some(1)`. -/
def envAllOk : ClientEnv :=
  { connectResult := fun _ => Except.ok sessionA
    signinResult := fun _ _ => Except.ok ()
    queryResult := fun _ _ => Except.ok responseA
    takeResult := fun _ _ => Except.ok (some 1) }

/-- Environment where the probe round trip completes but yields the
wrong scalar `Some(0)`. -/
def envWrongResult : ClientEnv :=
  { envAllOk with takeResult := fun _ _ => Except.ok (some 0) }

/-- Environment where the probe round trip completes but yields no
value at all. -/
def envNoneResult : ClientEnv :=
  { envAllOk with takeResult := fun _ _ => Except.ok none }

/-- Environment where the probe query itself errors. -/
def envProbeFail : ClientEnv :=
  { envAllOk with queryResult := fun _ _ => Except.error errBoom }

/-- Environment where the transport-level dial fails. -/
def envDialFail : ClientEnv :=
  { envAllOk with connectResult := fun _ => Except.error errBoom }

/-- Environment where the dial succeeds and authentication fails with
the same underlying error value as `envDialFail`. -/
def envAuthFail : ClientEnv :=
  { envAllOk with signinResult := fun _ _ => Except.error errBoom }

/-- Claim C1: a successful create performs exactly the sequence compose
URI, open transport session to that URI, authenticate with the stored
credentials as root payload, and return that session wrapped in a
shared handle; the trace shows a single connect call, so no retry is
attempted within the call. -/
theorem connect_success_sequence (m : SurrealDBConnectionManager)
    (env : ClientEnv) (hnd : Arc Session)
    (h : (m.connect env).fst = Except.ok hnd) :
    m.full_url = m.protocol.as_str ++ m.db_url
    ∧ ∃ db, env.connectResult m.full_url = Except.ok db
      ∧ env.signinResult db m.rootCred = Except.ok ()
      ∧ hnd = Arc.mk db
      ∧ (m.connect env).snd =
          [ClientEvent.connectCall m.full_url,
           ClientEvent.signinRoot db m.rootCred] := by
  refine ⟨rfl, ?_⟩
  cases hc : env.connectResult m.full_url with
  | error e =>
    simp [SurrealDBConnectionManager.connect, hc] at h
  | ok db =>
    cases hs : env.signinResult db m.rootCred with
    | error e =>
      simp [SurrealDBConnectionManager.connect, hc, hs] at h
    | ok u =>
      refine ⟨db, rfl, ?_, ?_, ?_⟩
      · exact hs
      · simp [SurrealDBConnectionManager.connect, hc, hs] at h
        exact h.symm
      · simp [SurrealDBConnectionManager.connect, hc, hs]

/-- Witness for C1 at the concrete all-success environment. -/
theorem connect_success_sequence_witness :
    managerA.full_url = managerA.protocol.as_str ++ managerA.db_url
    ∧ ∃ db, envAllOk.connectResult managerA.full_url = Except.ok db
      ∧ envAllOk.signinResult db managerA.rootCred = Except.ok ()
      ∧ Arc.mk sessionA = Arc.mk db
      ∧ (managerA.connect envAllOk).snd =
          [ClientEvent.connectCall managerA.full_url,
           ClientEvent.signinRoot db managerA.rootCred] :=
  connect_success_sequence managerA envAllOk (Arc.mk sessionA) rfl

/-- Claim C2: when the probe round trip completes, validate succeeds
with the same handle iff the scalar result equals the sentinel 1, and
otherwise fails with the ValidateError(UnexpectedResult) class error
constructed at src/lib.rs lines 97-99. -/
theorem check_sentinel_decides (m : SurrealDBConnectionManager)
    (env : ClientEnv) (conn : Arc Session) (resp : Response) (r : Option Int)
    (hq : env.queryResult conn.val "RETURN 1" = Except.ok resp)
    (ht : env.takeResult resp 0 = Except.ok r) :
    (m.check env conn).fst =
      if r = some 1 then Except.ok conn
      else Except.error healthCheckFailedError := by
  by_cases hr : r = some 1 <;>
    simp [SurrealDBConnectionManager.check, hq, ht, hr]

/-- Witness for C2 at the concrete wrong-scalar environment. -/
theorem check_sentinel_decides_witness :
    (managerA.check envWrongResult (Arc.mk sessionA)).fst =
      if (some 0 : Option Int) = some 1 then Except.ok (Arc.mk sessionA)
      else Except.error healthCheckFailedError :=
  check_sentinel_decides managerA envWrongResult (Arc.mk sessionA)
    responseA (some 0) rfl rfl

/-- Claim C10: validate treats the connection as healthy only when the
probe yields exactly `Some(1)`: success is equivalent to the result
being `some 1`, and both an empty result (`none`) and any integer other
than 1 fail the health check with the same error. -/
theorem check_requires_exactly_some_one (m : SurrealDBConnectionManager)
    (env : ClientEnv) (conn : Arc Session) (resp : Response) (r : Option Int)
    (hq : env.queryResult conn.val "RETURN 1" = Except.ok resp)
    (ht : env.takeResult resp 0 = Except.ok r) :
    ((m.check env conn).fst = Except.ok conn ↔ r = some 1)
    ∧ (r = none →
        (m.check env conn).fst = Except.error healthCheckFailedError)
    ∧ (∀ n : Int, n ≠ 1 → r = some n →
        (m.check env conn).fst = Except.error healthCheckFailedError) := by
  refine ⟨?_, ?_, ?_⟩
  · by_cases hr : r = some 1 <;>
      simp [SurrealDBConnectionManager.check, hq, ht, hr]
  · intro hn
    subst hn
    simp [SurrealDBConnectionManager.check, hq, ht]
  · intro n hn hr
    subst hr
    simp [SurrealDBConnectionManager.check, hq, ht, hn]

/-- Witness for C10 at the concrete empty-result environment. -/
theorem check_requires_exactly_some_one_witness :
    ((managerA.check envNoneResult (Arc.mk sessionA)).fst
        = Except.ok (Arc.mk sessionA) ↔ (none : Option Int) = some 1)
    ∧ ((none : Option Int) = none →
        (managerA.check envNoneResult (Arc.mk sessionA)).fst
          = Except.error healthCheckFailedError)
    ∧ (∀ n : Int, n ≠ 1 → (none : Option Int) = some n →
        (managerA.check envNoneResult (Arc.mk sessionA)).fst
          = Except.error healthCheckFailedError) :=
  check_requires_exactly_some_one managerA envNoneResult (Arc.mk sessionA)
    responseA none rfl rfl

/-- Counterexample to claim C4 as stated: validate can return an error
although every underlying client call in the round trip succeeded, so
that error carries no underlying cause — it is the fixed string-message
error `Api(Query("Health check failed"))`, not a structured wrapper
around a client failure. -/
theorem check_error_without_cause :
    (managerA.check envWrongResult (Arc.mk sessionA)).fst =
      Except.error (SurrealError.Api (ApiError.Query "Health check failed"))
    ∧ envWrongResult.queryResult sessionA "RETURN 1" = Except.ok responseA
    ∧ envWrongResult.takeResult responseA 0 = Except.ok (some 0) :=
  ⟨rfl, rfl, rfl⟩

/-- Claim C4 (amended): when the probe call itself errors, validate
fails by returning the underlying error itself, so the cause is
preserved verbatim; a failure of the take step likewise propagates its
error; and no failure path substitutes a default: validate succeeds only
when the probe completed with the sentinel, and then returns the same
handle. The unexpected-result failure, however, is a fixed
string-message error carrying no underlying cause. -/
theorem check_error_propagation (m : SurrealDBConnectionManager)
    (env : ClientEnv) (conn : Arc Session) :
    (∀ e, env.queryResult conn.val "RETURN 1" = Except.error e →
        (m.check env conn).fst = Except.error e)
    ∧ (∀ resp e, env.queryResult conn.val "RETURN 1" = Except.ok resp →
        env.takeResult resp 0 = Except.error e →
        (m.check env conn).fst = Except.error e)
    ∧ (∀ hnd, (m.check env conn).fst = Except.ok hnd →
        hnd = conn
        ∧ ∃ resp, env.queryResult conn.val "RETURN 1" = Except.ok resp
          ∧ env.takeResult resp 0 = Except.ok (some 1)) := by
  refine ⟨?_, ?_, ?_⟩
  · intro e hq
    simp [SurrealDBConnectionManager.check, hq]
  · intro resp e hq ht
    simp [SurrealDBConnectionManager.check, hq, ht]
  · intro hnd h
    cases hq : env.queryResult conn.val "RETURN 1" with
    | error e => simp [SurrealDBConnectionManager.check, hq] at h
    | ok resp =>
      cases ht : env.takeResult resp 0 with
      | error e => simp [SurrealDBConnectionManager.check, hq, ht] at h
      | ok r =>
        by_cases hr : r = some 1
        · subst hr
          simp [SurrealDBConnectionManager.check, hq, ht] at h
          exact ⟨h.symm, resp, rfl, ht⟩
        · simp [SurrealDBConnectionManager.check, hq, ht, hr] at h

/-- Witness for the amended C4 at the concrete failing-probe
environment. -/
theorem check_error_propagation_witness :
    (managerA.check envProbeFail (Arc.mk sessionA)).fst
      = Except.error errBoom :=
  (check_error_propagation managerA envProbeFail (Arc.mk sessionA)).1
    errBoom rfl

/-- Counterexample to claim C5 as stated: a dial failure and an
authentication failure can yield the very same returned error value, so
the two failure phases are not distinguishable in the returned error —
the code adds no ConnectError(Transport) versus ConnectError(Auth)
classification of its own. -/
theorem connect_phases_same_error :
    (managerA.connect envDialFail).fst = Except.error errBoom
    ∧ (managerA.connect envAuthFail).fst = Except.error errBoom
    ∧ envDialFail.connectResult managerA.full_url = Except.error errBoom
    ∧ envAuthFail.connectResult managerA.full_url = Except.ok sessionA
    ∧ envAuthFail.signinResult sessionA managerA.rootCred
        = Except.error errBoom :=
  ⟨rfl, rfl, rfl, rfl, rfl⟩

/-- Claim C5 (amended): a failure of the transport-level dial causes
create to return the dial error verbatim, and a failure of the
authentication step causes create to return the authentication error
verbatim; the adapter adds no phase tag of its own, so the two phases
are distinguishable only insofar as the underlying client errors
differ. -/
theorem connect_error_propagation (m : SurrealDBConnectionManager)
    (env : ClientEnv) :
    (∀ e, env.connectResult m.full_url = Except.error e →
        (m.connect env).fst = Except.error e)
    ∧ (∀ db e, env.connectResult m.full_url = Except.ok db →
        env.signinResult db m.rootCred = Except.error e →
        (m.connect env).fst = Except.error e) := by
  refine ⟨?_, ?_⟩
  · intro e hc
    simp [SurrealDBConnectionManager.connect, hc]
  · intro db e hc hs
    simp [SurrealDBConnectionManager.connect, hc, hs]

/-- Witness for the amended C5 at the concrete failing-authentication
environment. -/
theorem connect_error_propagation_witness :
    (managerA.connect envAuthFail).fst = Except.error errBoom :=
  (connect_error_propagation managerA envAuthFail).2
    sessionA errBoom rfl rfl

/-- Claim C6: when create fails after the transport-level session has
been opened (the authentication step fails), the error is returned with
the partially-established session closed — the only handle to it is
dropped before the return, as the final recorded event — and no session
escapes in the result. -/
theorem connect_auth_failure_closes_session (m : SurrealDBConnectionManager)
    (env : ClientEnv) (db : Session) (e : SurrealError)
    (hc : env.connectResult m.full_url = Except.ok db)
    (hs : env.signinResult db m.rootCred = Except.error e) :
    m.connect env =
      (Except.error e,
        [ClientEvent.connectCall m.full_url,
         ClientEvent.signinRoot db m.rootCred,
         ClientEvent.sessionDropped db]) := by
  simp [SurrealDBConnectionManager.connect, hc, hs]

/-- Witness for C6 at the concrete failing-authentication
environment. -/
theorem connect_auth_failure_closes_session_witness :
    managerA.connect envAuthFail =
      (Except.error errBoom,
        [ClientEvent.connectCall managerA.full_url,
         ClientEvent.signinRoot sessionA managerA.rootCred,
         ClientEvent.sessionDropped sessionA]) :=
  connect_auth_failure_closes_session managerA envAuthFail sessionA errBoom
    rfl rfl

/-- Claim C7: a successful validate returns the very same handle
unchanged, an immediate repeat of validate on that handle yields the
identical successful outcome, and the recorded trace contains no event
that mutates session-visible state — no re-authentication, no namespace
or database context selection, no close. -/
theorem check_idempotent_same_handle (m : SurrealDBConnectionManager)
    (env : ClientEnv) (conn : Arc Session) (hnd : Arc Session)
    (h : (m.check env conn).fst = Except.ok hnd) :
    hnd = conn
    ∧ (m.check env hnd).fst = Except.ok hnd
    ∧ m.check env hnd = m.check env conn
    ∧ ∀ ev ∈ (m.check env conn).snd, ev.mutatesSessionState = false := by
  cases hq : env.queryResult conn.val "RETURN 1" with
  | error e => simp [SurrealDBConnectionManager.check, hq] at h
  | ok resp =>
    cases ht : env.takeResult resp 0 with
    | error e => simp [SurrealDBConnectionManager.check, hq, ht] at h
    | ok r =>
      by_cases hr : r = some 1
      · subst hr
        simp [SurrealDBConnectionManager.check, hq, ht] at h
        subst h
        refine ⟨rfl, ?_, rfl, ?_⟩
        · simp [SurrealDBConnectionManager.check, hq, ht]
        · intro ev hev
          simp [SurrealDBConnectionManager.check, hq, ht] at hev
          rcases hev with hev | hev <;>
            simp [hev, ClientEvent.mutatesSessionState]
      · simp [SurrealDBConnectionManager.check, hq, ht, hr] at h

/-- Witness for C7 at the concrete all-success environment. -/
theorem check_idempotent_same_handle_witness :
    Arc.mk sessionA = Arc.mk sessionA
    ∧ (managerA.check envAllOk (Arc.mk sessionA)).fst
        = Except.ok (Arc.mk sessionA)
    ∧ managerA.check envAllOk (Arc.mk sessionA)
        = managerA.check envAllOk (Arc.mk sessionA)
    ∧ ∀ ev ∈ (managerA.check envAllOk (Arc.mk sessionA)).snd,
        ev.mutatesSessionState = false :=
  check_idempotent_same_handle managerA envAllOk (Arc.mk sessionA)
    (Arc.mk sessionA) rfl

/-- Claim C8: assuming the client library hands out fresh sessions with
no namespace or database context selected (a property of `any::connect`,
outside this crate), a successful create returns a handle whose session
has no namespace or database context selected, and the create trace
contains no context-selection event: create performs no selection beyond
connecting and authenticating. -/
theorem connect_no_context_selection (m : SurrealDBConnectionManager)
    (env : ClientEnv) (hnd : Arc Session)
    (hfresh : ∀ uri s, env.connectResult uri = Except.ok s →
        s.ns_ctx = none ∧ s.db_ctx = none)
    (h : (m.connect env).fst = Except.ok hnd) :
    hnd.val.ns_ctx = none
    ∧ hnd.val.db_ctx = none
    ∧ ∀ ev ∈ (m.connect env).snd, ev.selectsContext = false := by
  cases hc : env.connectResult m.full_url with
  | error e => simp [SurrealDBConnectionManager.connect, hc] at h
  | ok db =>
    cases hs : env.signinResult db m.rootCred with
    | error e => simp [SurrealDBConnectionManager.connect, hc, hs] at h
    | ok u =>
      simp [SurrealDBConnectionManager.connect, hc, hs] at h
      subst h
      obtain ⟨hn, hd⟩ := hfresh m.full_url db hc
      refine ⟨hn, hd, ?_⟩
      intro ev hev
      simp [SurrealDBConnectionManager.connect, hc, hs] at hev
      rcases hev with hev | hev <;>
        simp [hev, ClientEvent.selectsContext]

/-- Witness for C8 at the concrete all-success environment, whose
connect oracle only hands out the fresh session. -/
theorem connect_no_context_selection_witness :
    (Arc.mk sessionA).val.ns_ctx = none
    ∧ (Arc.mk sessionA).val.db_ctx = none
    ∧ ∀ ev ∈ (managerA.connect envAllOk).snd, ev.selectsContext = false :=
  connect_no_context_selection managerA envAllOk (Arc.mk sessionA)
    (fun uri s h => by
      simp [envAllOk] at h
      subst h
      exact ⟨rfl, rfl⟩)
    rfl
